import Mathlib

set_option maxRecDepth 8000

namespace MetroHeroRs

/-- Errors relating to communication with the MetroHero API, from `src/errors.rs`. -/
inductive MetroHeroError where
  | HttpError
  | ParseError
  | InvalidRequest
  | InvalidStation
  | InvalidTrainId
  | InvalidItinerary
  | AuthenticationError
  | RateLimited
deriving DecidableEq, Repr

/-- The RTU code for a Metrorail station, from the `StationCode` enum in `src/schemas.rs`.
The final variant `UNKNOWN` is the sentinel carrying the `serde(other)` attribute. -/
inductive StationCode where
  | A01
  | A02
  | A03
  | A04
  | A05
  | A06
  | A07
  | A08
  | A09
  | A10
  | A11
  | A12
  | A13
  | A14
  | A15
  | B01
  | B02
  | B03
  | B04
  | B05
  | B06
  | B07
  | B08
  | B09
  | B10
  | B11
  | B35
  | C01
  | C02
  | C03
  | C04
  | C05
  | C06
  | C07
  | C08
  | C09
  | C10
  | C11
  | C12
  | C13
  | C14
  | C15
  | D01
  | D02
  | D03
  | D04
  | D05
  | D06
  | D07
  | D08
  | D09
  | D10
  | D11
  | D12
  | D13
  | E01
  | E02
  | E03
  | E04
  | E05
  | E06
  | E07
  | E08
  | E09
  | E10
  | F01
  | F02
  | F03
  | F04
  | F05
  | F06
  | F07
  | F08
  | F09
  | F10
  | F11
  | G01
  | G02
  | G03
  | G04
  | G05
  | K01
  | K02
  | K03
  | K04
  | K05
  | K06
  | K07
  | K08
  | N01
  | N02
  | N03
  | N04
  | N06
  | N07
  | N08
  | N09
  | N10
  | N11
  | N12
  | J02
  | J03
  | UNKNOWN
deriving DecidableEq, Repr

/-- The string form of a station code, as produced by the derived `strum` `Display`
implementation (the variant name itself). -/
def StationCode.displayString : StationCode → String
  | .A01 => "A01"
  | .A02 => "A02"
  | .A03 => "A03"
  | .A04 => "A04"
  | .A05 => "A05"
  | .A06 => "A06"
  | .A07 => "A07"
  | .A08 => "A08"
  | .A09 => "A09"
  | .A10 => "A10"
  | .A11 => "A11"
  | .A12 => "A12"
  | .A13 => "A13"
  | .A14 => "A14"
  | .A15 => "A15"
  | .B01 => "B01"
  | .B02 => "B02"
  | .B03 => "B03"
  | .B04 => "B04"
  | .B05 => "B05"
  | .B06 => "B06"
  | .B07 => "B07"
  | .B08 => "B08"
  | .B09 => "B09"
  | .B10 => "B10"
  | .B11 => "B11"
  | .B35 => "B35"
  | .C01 => "C01"
  | .C02 => "C02"
  | .C03 => "C03"
  | .C04 => "C04"
  | .C05 => "C05"
  | .C06 => "C06"
  | .C07 => "C07"
  | .C08 => "C08"
  | .C09 => "C09"
  | .C10 => "C10"
  | .C11 => "C11"
  | .C12 => "C12"
  | .C13 => "C13"
  | .C14 => "C14"
  | .C15 => "C15"
  | .D01 => "D01"
  | .D02 => "D02"
  | .D03 => "D03"
  | .D04 => "D04"
  | .D05 => "D05"
  | .D06 => "D06"
  | .D07 => "D07"
  | .D08 => "D08"
  | .D09 => "D09"
  | .D10 => "D10"
  | .D11 => "D11"
  | .D12 => "D12"
  | .D13 => "D13"
  | .E01 => "E01"
  | .E02 => "E02"
  | .E03 => "E03"
  | .E04 => "E04"
  | .E05 => "E05"
  | .E06 => "E06"
  | .E07 => "E07"
  | .E08 => "E08"
  | .E09 => "E09"
  | .E10 => "E10"
  | .F01 => "F01"
  | .F02 => "F02"
  | .F03 => "F03"
  | .F04 => "F04"
  | .F05 => "F05"
  | .F06 => "F06"
  | .F07 => "F07"
  | .F08 => "F08"
  | .F09 => "F09"
  | .F10 => "F10"
  | .F11 => "F11"
  | .G01 => "G01"
  | .G02 => "G02"
  | .G03 => "G03"
  | .G04 => "G04"
  | .G05 => "G05"
  | .K01 => "K01"
  | .K02 => "K02"
  | .K03 => "K03"
  | .K04 => "K04"
  | .K05 => "K05"
  | .K06 => "K06"
  | .K07 => "K07"
  | .K08 => "K08"
  | .N01 => "N01"
  | .N02 => "N02"
  | .N03 => "N03"
  | .N04 => "N04"
  | .N06 => "N06"
  | .N07 => "N07"
  | .N08 => "N08"
  | .N09 => "N09"
  | .N10 => "N10"
  | .N11 => "N11"
  | .N12 => "N12"
  | .J02 => "J02"
  | .J03 => "J03"
  | .UNKNOWN => "UNKNOWN"

/-- Lookup in an association list built by successive `HashMap::insert` calls:
a later insert with the same key overwrites an earlier one, so the lookup
returns the value of the LAST matching entry. -/
def lookupLast {K V : Type} [DecidableEq K] : List (K × V) → K → Option V
  | [], _ => none
  | (k, v) :: t, s =>
    match lookupLast t s with
    | some w => some w
    | none => if s = k then some v else none

/-- First-match lookup in an association list, mirroring a chain of string-literal
match arms tried in order (the shape of derived `FromStr` and `serde` enum
deserializers). The keys of the tables below are pairwise distinct, so at most
one arm can ever match. -/
def lookupFirst {K V : Type} [DecidableEq K] : List (K × V) → K → Option V
  | [], _ => none
  | (k, v) :: t, s => if s = k then some v else lookupFirst t s

/-- The variant-name strings of `StationCode` in declaration order, each paired with
its variant: the match table of the derived case-sensitive `strum` `EnumString`
implementation of `FromStr` in `src/schemas.rs`. -/
def STATION_CODE_STRINGS : List (String × StationCode) := [
  ("A01", StationCode.A01),
  ("A02", StationCode.A02),
  ("A03", StationCode.A03),
  ("A04", StationCode.A04),
  ("A05", StationCode.A05),
  ("A06", StationCode.A06),
  ("A07", StationCode.A07),
  ("A08", StationCode.A08),
  ("A09", StationCode.A09),
  ("A10", StationCode.A10),
  ("A11", StationCode.A11),
  ("A12", StationCode.A12),
  ("A13", StationCode.A13),
  ("A14", StationCode.A14),
  ("A15", StationCode.A15),
  ("B01", StationCode.B01),
  ("B02", StationCode.B02),
  ("B03", StationCode.B03),
  ("B04", StationCode.B04),
  ("B05", StationCode.B05),
  ("B06", StationCode.B06),
  ("B07", StationCode.B07),
  ("B08", StationCode.B08),
  ("B09", StationCode.B09),
  ("B10", StationCode.B10),
  ("B11", StationCode.B11),
  ("B35", StationCode.B35),
  ("C01", StationCode.C01),
  ("C02", StationCode.C02),
  ("C03", StationCode.C03),
  ("C04", StationCode.C04),
  ("C05", StationCode.C05),
  ("C06", StationCode.C06),
  ("C07", StationCode.C07),
  ("C08", StationCode.C08),
  ("C09", StationCode.C09),
  ("C10", StationCode.C10),
  ("C11", StationCode.C11),
  ("C12", StationCode.C12),
  ("C13", StationCode.C13),
  ("C14", StationCode.C14),
  ("C15", StationCode.C15),
  ("D01", StationCode.D01),
  ("D02", StationCode.D02),
  ("D03", StationCode.D03),
  ("D04", StationCode.D04),
  ("D05", StationCode.D05),
  ("D06", StationCode.D06),
  ("D07", StationCode.D07),
  ("D08", StationCode.D08),
  ("D09", StationCode.D09),
  ("D10", StationCode.D10),
  ("D11", StationCode.D11),
  ("D12", StationCode.D12),
  ("D13", StationCode.D13),
  ("E01", StationCode.E01),
  ("E02", StationCode.E02),
  ("E03", StationCode.E03),
  ("E04", StationCode.E04),
  ("E05", StationCode.E05),
  ("E06", StationCode.E06),
  ("E07", StationCode.E07),
  ("E08", StationCode.E08),
  ("E09", StationCode.E09),
  ("E10", StationCode.E10),
  ("F01", StationCode.F01),
  ("F02", StationCode.F02),
  ("F03", StationCode.F03),
  ("F04", StationCode.F04),
  ("F05", StationCode.F05),
  ("F06", StationCode.F06),
  ("F07", StationCode.F07),
  ("F08", StationCode.F08),
  ("F09", StationCode.F09),
  ("F10", StationCode.F10),
  ("F11", StationCode.F11),
  ("G01", StationCode.G01),
  ("G02", StationCode.G02),
  ("G03", StationCode.G03),
  ("G04", StationCode.G04),
  ("G05", StationCode.G05),
  ("K01", StationCode.K01),
  ("K02", StationCode.K02),
  ("K03", StationCode.K03),
  ("K04", StationCode.K04),
  ("K05", StationCode.K05),
  ("K06", StationCode.K06),
  ("K07", StationCode.K07),
  ("K08", StationCode.K08),
  ("N01", StationCode.N01),
  ("N02", StationCode.N02),
  ("N03", StationCode.N03),
  ("N04", StationCode.N04),
  ("N06", StationCode.N06),
  ("N07", StationCode.N07),
  ("N08", StationCode.N08),
  ("N09", StationCode.N09),
  ("N10", StationCode.N10),
  ("N11", StationCode.N11),
  ("N12", StationCode.N12),
  ("J02", StationCode.J02),
  ("J03", StationCode.J03),
  ("UNKNOWN", StationCode.UNKNOWN)]

/-- The variant-name strings recognized by `serde` when deserializing a station code:
every variant except `UNKNOWN`, which instead carries `#[serde(other)]` and is the
fallback for any unmatched string. -/
def STATION_CODE_SERDE_STRINGS : List (String × StationCode) := [
  ("A01", StationCode.A01),
  ("A02", StationCode.A02),
  ("A03", StationCode.A03),
  ("A04", StationCode.A04),
  ("A05", StationCode.A05),
  ("A06", StationCode.A06),
  ("A07", StationCode.A07),
  ("A08", StationCode.A08),
  ("A09", StationCode.A09),
  ("A10", StationCode.A10),
  ("A11", StationCode.A11),
  ("A12", StationCode.A12),
  ("A13", StationCode.A13),
  ("A14", StationCode.A14),
  ("A15", StationCode.A15),
  ("B01", StationCode.B01),
  ("B02", StationCode.B02),
  ("B03", StationCode.B03),
  ("B04", StationCode.B04),
  ("B05", StationCode.B05),
  ("B06", StationCode.B06),
  ("B07", StationCode.B07),
  ("B08", StationCode.B08),
  ("B09", StationCode.B09),
  ("B10", StationCode.B10),
  ("B11", StationCode.B11),
  ("B35", StationCode.B35),
  ("C01", StationCode.C01),
  ("C02", StationCode.C02),
  ("C03", StationCode.C03),
  ("C04", StationCode.C04),
  ("C05", StationCode.C05),
  ("C06", StationCode.C06),
  ("C07", StationCode.C07),
  ("C08", StationCode.C08),
  ("C09", StationCode.C09),
  ("C10", StationCode.C10),
  ("C11", StationCode.C11),
  ("C12", StationCode.C12),
  ("C13", StationCode.C13),
  ("C14", StationCode.C14),
  ("C15", StationCode.C15),
  ("D01", StationCode.D01),
  ("D02", StationCode.D02),
  ("D03", StationCode.D03),
  ("D04", StationCode.D04),
  ("D05", StationCode.D05),
  ("D06", StationCode.D06),
  ("D07", StationCode.D07),
  ("D08", StationCode.D08),
  ("D09", StationCode.D09),
  ("D10", StationCode.D10),
  ("D11", StationCode.D11),
  ("D12", StationCode.D12),
  ("D13", StationCode.D13),
  ("E01", StationCode.E01),
  ("E02", StationCode.E02),
  ("E03", StationCode.E03),
  ("E04", StationCode.E04),
  ("E05", StationCode.E05),
  ("E06", StationCode.E06),
  ("E07", StationCode.E07),
  ("E08", StationCode.E08),
  ("E09", StationCode.E09),
  ("E10", StationCode.E10),
  ("F01", StationCode.F01),
  ("F02", StationCode.F02),
  ("F03", StationCode.F03),
  ("F04", StationCode.F04),
  ("F05", StationCode.F05),
  ("F06", StationCode.F06),
  ("F07", StationCode.F07),
  ("F08", StationCode.F08),
  ("F09", StationCode.F09),
  ("F10", StationCode.F10),
  ("F11", StationCode.F11),
  ("G01", StationCode.G01),
  ("G02", StationCode.G02),
  ("G03", StationCode.G03),
  ("G04", StationCode.G04),
  ("G05", StationCode.G05),
  ("K01", StationCode.K01),
  ("K02", StationCode.K02),
  ("K03", StationCode.K03),
  ("K04", StationCode.K04),
  ("K05", StationCode.K05),
  ("K06", StationCode.K06),
  ("K07", StationCode.K07),
  ("K08", StationCode.K08),
  ("N01", StationCode.N01),
  ("N02", StationCode.N02),
  ("N03", StationCode.N03),
  ("N04", StationCode.N04),
  ("N06", StationCode.N06),
  ("N07", StationCode.N07),
  ("N08", StationCode.N08),
  ("N09", StationCode.N09),
  ("N10", StationCode.N10),
  ("N11", StationCode.N11),
  ("N12", StationCode.N12),
  ("J02", StationCode.J02),
  ("J03", StationCode.J03)]

/-- Exact, case-sensitive parsing of a station-code string, as produced by the derived
`strum` `EnumString` implementation of `FromStr` in `src/schemas.rs`: each variant
name matches itself and anything else is a parse failure (modelled as `none`). -/
def StationCode.fromStr (s : String) : Option StationCode :=
  lookupFirst STATION_CODE_STRINGS s

/-- The `serde` deserialization of a station-code string, from the `StationCode` enum
in `src/schemas.rs`: each variant name matches itself, and any other string falls
through to the `#[serde(other)]` variant `UNKNOWN`, so deserialization of a station
code never fails. -/
def stationCodeDeserialize (s : String) : StationCode :=
  (lookupFirst STATION_CODE_SERDE_STRINGS s).getD .UNKNOWN

/-- The `STATION_CODE_TO_NAME` table from `src/schemas.rs`, in source insertion order. -/
def STATION_CODE_TO_NAME : List (StationCode × String) := [
  (StationCode.A01, "Metro Center"),
  (StationCode.A02, "Farragut North"),
  (StationCode.A03, "Dupont Circle"),
  (StationCode.A04, "Woodley Park-Zoo/Adams Morgan"),
  (StationCode.A05, "Cleveland Park"),
  (StationCode.A06, "Van Ness-UDC"),
  (StationCode.A07, "Tenleytown-AU"),
  (StationCode.A08, "Friendship Heights"),
  (StationCode.A09, "Bethesda"),
  (StationCode.A10, "Medical Center"),
  (StationCode.A11, "Grosvenor-Strathmore"),
  (StationCode.A12, "White Flint"),
  (StationCode.A13, "Twinbrook"),
  (StationCode.A14, "Rockville"),
  (StationCode.A15, "Shady Grove"),
  (StationCode.B01, "Gallery Pl-Chinatown"),
  (StationCode.B02, "Judiciary Square"),
  (StationCode.B03, "Union Station"),
  (StationCode.B04, "Rhode Island Ave-Brentwood"),
  (StationCode.B05, "Brookland-CUA"),
  (StationCode.B06, "Fort Totten"),
  (StationCode.B07, "Takoma"),
  (StationCode.B08, "Silver Spring"),
  (StationCode.B09, "Forest Glen"),
  (StationCode.B10, "Wheaton"),
  (StationCode.B11, "Glenmont"),
  (StationCode.B35, "NoMa-Gallaudet U"),
  (StationCode.C01, "Metro Center"),
  (StationCode.C02, "McPherson Square"),
  (StationCode.C03, "Farragut West"),
  (StationCode.C04, "Foggy Bottom-GWU"),
  (StationCode.C05, "Rosslyn"),
  (StationCode.C06, "Arlington Cemetery"),
  (StationCode.C07, "Pentagon"),
  (StationCode.C08, "Pentagon City"),
  (StationCode.C09, "Crystal City"),
  (StationCode.C10, "Ronald Reagan Washington National Airport"),
  (StationCode.C11, "Potomac Yard"),
  (StationCode.C12, "Braddock Road"),
  (StationCode.C13, "King St-Old Town"),
  (StationCode.C14, "Eisenhower Avenue"),
  (StationCode.C15, "Huntington"),
  (StationCode.D01, "Federal Triangle"),
  (StationCode.D02, "Smithsonian"),
  (StationCode.D03, "L\x27Enfant Plaza"),
  (StationCode.D04, "Federal Center SW"),
  (StationCode.D05, "Capitol South"),
  (StationCode.D06, "Eastern Market"),
  (StationCode.D07, "Potomac Ave"),
  (StationCode.D08, "Stadium-Armory"),
  (StationCode.D09, "Minnesota Ave"),
  (StationCode.D10, "Deanwood"),
  (StationCode.D11, "Cheverly"),
  (StationCode.D12, "Landover"),
  (StationCode.D13, "New Carrollton"),
  (StationCode.E01, "Mt Vernon Sq 7th St-Convention Center"),
  (StationCode.E02, "Shaw-Howard U"),
  (StationCode.E03, "U Street/African-Amer Civil War Memorial/Cardozo"),
  (StationCode.E04, "Columbia Heights"),
  (StationCode.E05, "Georgia Ave-Petworth"),
  (StationCode.E06, "Fort Totten"),
  (StationCode.E07, "West Hyattsville"),
  (StationCode.E08, "Prince George\x27s Plaza"),
  (StationCode.E09, "College Park-U of Md"),
  (StationCode.E10, "Greenbelt"),
  (StationCode.F01, "Gallery Pl-Chinatown"),
  (StationCode.F02, "Archives-Navy Memorial-Penn Quarter"),
  (StationCode.F03, "L\x27Enfant Plaza"),
  (StationCode.F04, "Waterfront"),
  (StationCode.F05, "Navy Yard-Ballpark"),
  (StationCode.F06, "Anacostia"),
  (StationCode.F07, "Congress Heights"),
  (StationCode.F08, "Southern Avenue"),
  (StationCode.F09, "Naylor Road"),
  (StationCode.F10, "Suitland"),
  (StationCode.F11, "Branch Ave"),
  (StationCode.G01, "Benning Road"),
  (StationCode.G02, "Capitol Heights"),
  (StationCode.G03, "Addison Road-Seat Pleasant"),
  (StationCode.G04, "Morgan Boulevard"),
  (StationCode.G05, "Largo Town Center"),
  (StationCode.J02, "Van Dorn Street"),
  (StationCode.J03, "Franconia-Springfield"),
  (StationCode.K01, "Court House"),
  (StationCode.K02, "Clarendon"),
  (StationCode.K03, "Virginia Square-GMU"),
  (StationCode.K04, "Ballston-MU"),
  (StationCode.K05, "East Falls Church"),
  (StationCode.K06, "West Falls Church-VT/UVA"),
  (StationCode.K07, "Dunn Loring-Merrifield"),
  (StationCode.K08, "Vienna/Fairfax-GMU"),
  (StationCode.N01, "McLean"),
  (StationCode.N02, "Tysons Corner"),
  (StationCode.N03, "Greensboro"),
  (StationCode.N04, "Spring Hill"),
  (StationCode.N06, "Wiehle-Reston East"),
  (StationCode.N07, "Reston Town Center"),
  (StationCode.N08, "Herndon"),
  (StationCode.N09, "Innovation Center"),
  (StationCode.N10, "Dulles International Airport"),
  (StationCode.N11, "Loudoun Gateway"),
  (StationCode.N12, "Ashburn"),
  (StationCode.UNKNOWN, "UNKNOWN")
]

/-- The `STATION_NAME_TO_CODE` table from `src/schemas.rs`, in source insertion order
(later inserts with a duplicate name overwrite earlier ones, per `HashMap` semantics). -/
def STATION_NAME_TO_CODE : List (String × StationCode) := [
  ("Metro Center", StationCode.A01),
  ("Farragut North", StationCode.A02),
  ("Dupont Circle", StationCode.A03),
  ("Dupont", StationCode.A03),
  ("Woodley Park-Zoo/Adams Morgan", StationCode.A04),
  ("Adams Morgan", StationCode.A04),
  ("Zoo", StationCode.A04),
  ("Woodley Park", StationCode.A04),
  ("Cleveland Park", StationCode.A05),
  ("Van Ness-UDC", StationCode.A06),
  ("Tenleytown-AU", StationCode.A07),
  ("Friendship Heights", StationCode.A08),
  ("Bethesda", StationCode.A09),
  ("Medical Center", StationCode.A10),
  ("Grosvenor-Strathmore", StationCode.A11),
  ("White Flint", StationCode.A12),
  ("Twinbrook", StationCode.A13),
  ("Rockville", StationCode.A14),
  ("Shady Grove", StationCode.A15),
  ("Gallery Pl-Chinatown", StationCode.B01),
  ("Chinatown", StationCode.B01),
  ("Gallery Pl", StationCode.B01),
  ("Judiciary Square", StationCode.B02),
  ("Union Station", StationCode.B03),
  ("Rhode Island Ave-Brentwood", StationCode.B04),
  ("Brookland-CUA", StationCode.B05),
  ("Fort Totten", StationCode.B06),
  ("Takoma", StationCode.B07),
  ("Silver Spring", StationCode.B08),
  ("Forest Glen", StationCode.B09),
  ("Wheaton", StationCode.B10),
  ("Glenmont", StationCode.B11),
  ("NoMa-Gallaudet U", StationCode.B35),
  ("Metro Center", StationCode.C01),
  ("McPherson Square", StationCode.C02),
  ("Farragut West", StationCode.C03),
  ("Foggy Bottom-GWU", StationCode.C04),
  ("GWU", StationCode.C04),
  ("Foggy Bottom", StationCode.C04),
  ("Rosslyn", StationCode.C05),
  ("Arlington Cemetery", StationCode.C06),
  ("Pentagon", StationCode.C07),
  ("Pentagon City", StationCode.C08),
  ("Crystal City", StationCode.C09),
  ("Ronald Reagan Washington National Airport", StationCode.C10),
  ("DCA", StationCode.C10),
  ("Potomac Yard", StationCode.C11),
  ("Braddock Road", StationCode.C12),
  ("King St-Old Town", StationCode.C13),
  ("Eisenhower Avenue", StationCode.C14),
  ("Huntington", StationCode.C15),
  ("Federal Triangle", StationCode.D01),
  ("Smithsonian", StationCode.D02),
  ("L\x27Enfant Plaza", StationCode.D03),
  ("Federal Center SW", StationCode.D04),
  ("Capitol South", StationCode.D05),
  ("Eastern Market", StationCode.D06),
  ("Potomac Ave", StationCode.D07),
  ("Stadium-Armory", StationCode.D08),
  ("Minnesota Ave", StationCode.D09),
  ("Deanwood", StationCode.D10),
  ("Cheverly", StationCode.D11),
  ("Landover", StationCode.D12),
  ("New Carrollton", StationCode.D13),
  ("Mt Vernon Sq 7th St-Convention Center", StationCode.E01),
  ("Shaw-Howard U", StationCode.E02),
  ("U Street/African-Amer Civil War Memorial/Cardozo", StationCode.E03),
  ("African-Amer Civil War Memorial", StationCode.E03),
  ("U Street", StationCode.E03),
  ("Cardozo", StationCode.E03),
  ("Columbia Heights", StationCode.E04),
  ("Georgia Ave-Petworth", StationCode.E05),
  ("Georgia Ave", StationCode.E05),
  ("Petworth", StationCode.E05),
  ("Fort Totten", StationCode.E06),
  ("West Hyattsville", StationCode.E07),
  ("Prince George\x27s Plaza", StationCode.E08),
  ("College Park-U of Md", StationCode.E09),
  ("UMD", StationCode.E09),
  ("College Park", StationCode.E09),
  ("Greenbelt", StationCode.E10),
  ("Chinatown", StationCode.F01),
  ("Gallery Pl-Chinatown", StationCode.F01),
  ("Gallery Pl", StationCode.F01),
  ("Archives-Navy Memorial-Penn Quarter", StationCode.F02),
  ("L\x27Enfant Plaza", StationCode.F03),
  ("Waterfront", StationCode.F04),
  ("Navy Yard-Ballpark", StationCode.F05),
  ("Ballpark", StationCode.F05),
  ("Navy Yard", StationCode.F05),
  ("Anacostia", StationCode.F06),
  ("Congress Heights", StationCode.F07),
  ("Southern Avenue", StationCode.F08),
  ("Naylor Road", StationCode.F09),
  ("Suitland", StationCode.F10),
  ("Branch Ave", StationCode.F11),
  ("Benning Road", StationCode.G01),
  ("Capitol Heights", StationCode.G02),
  ("Addison Road-Seat Pleasant", StationCode.G03),
  ("Morgan Boulevard", StationCode.G04),
  ("Largo Town Center", StationCode.G05),
  ("Van Dorn Street", StationCode.J02),
  ("Franconia-Springfield", StationCode.J03),
  ("Court House", StationCode.K01),
  ("Clarendon", StationCode.K02),
  ("Virginia Square-GMU", StationCode.K03),
  ("GMU", StationCode.K03),
  ("Virginia Square", StationCode.K03),
  ("Ballston-MU", StationCode.K04),
  ("MU", StationCode.K04),
  ("Ballston", StationCode.K04),
  ("East Falls Church", StationCode.K05),
  ("West Falls Church-VT/UVA", StationCode.K06),
  ("Dunn Loring-Merrifield", StationCode.K07),
  ("Vienna/Fairfax-GMU", StationCode.K08),
  ("Vienna", StationCode.K08),
  ("McLean", StationCode.N01),
  ("Tysons Corner", StationCode.N02),
  ("Greensboro", StationCode.N03),
  ("Spring Hill", StationCode.N04),
  ("Wiehle-Reston East", StationCode.N06),
  ("Wiehle", StationCode.N06),
  ("Reston Town Center", StationCode.N07),
  ("Reston", StationCode.N07),
  ("Herndon", StationCode.N08),
  ("Innovation Center", StationCode.N09),
  ("Dulles International Airport", StationCode.N10),
  ("IAD", StationCode.N10),
  ("Loudoun Gateway", StationCode.N11),
  ("Loudoun", StationCode.N11),
  ("Ashburn", StationCode.N12),
  ("UNKNOWN", StationCode.UNKNOWN)
]

/-- `StationCode::from_name` from `src/schemas.rs`: look up a friendly name in
`STATION_NAME_TO_CODE`, failing with `InvalidStation` when absent. -/
def StationCode.from_name (name : String) : Except MetroHeroError StationCode :=
  match lookupLast STATION_NAME_TO_CODE name with
  | some code => .ok code
  | none => .error .InvalidStation

/-- `StationCode::to_name` from `src/schemas.rs`: look up the code in
`STATION_CODE_TO_NAME`. The source calls `.unwrap()` on the lookup; the `Option`
result models that lookup, and `to_name` never being `none` is exactly the
unreachability of the unwrap panic. -/
def StationCode.to_name (code : StationCode) : Option String :=
  lookupLast STATION_CODE_TO_NAME code

/-- Outcome of `parse_user_station_input` in `src/cli.rs`: either a resolved code, or
the error path that prints `InvalidStation` and exits the process with status 1. -/
inductive ParseOutcome where
  | ok (code : StationCode)
  | exitInvalidStation
deriving DecidableEq, Repr

/-- `parse_user_station_input` from `src/cli.rs`: first try an exact match against the
station-code enumeration, then an exact match against the name table, else print
`InvalidStation` and exit. -/
def parse_user_station_input (input : String) : ParseOutcome :=
  let code_attempt := StationCode.fromStr input
  let name_attempt := StationCode.from_name input
  match code_attempt with
  | some code => .ok code
  | none =>
    match name_attempt with
    | .ok code => .ok code
    | .error _ => .exitInvalidStation


/-- Metrorail line codes, from the `LineCode` enum in `src/schemas.rs`. -/
inductive LineCode where
  | Silver
  | Red
  | Orange
  | Blue
  | Yellow
  | Green
  | NonRevenue
deriving DecidableEq, Repr

/-- A tweet referencing a Metrorail station, line, or train, from `src/schemas.rs`. -/
structure Tweet where
  twitter_id : Int
  twitter_id_string : String
  user_id : Int
  text : String
  station_codes : List StationCode
  line_codes : List LineCode
  keywords : List String
  url : String
  date : String

/-- A truncated tweet returned as a child on a TrainPrediction, from `src/schemas.rs`. -/
structure AbridgedTweet where
  twitter_id : Int
  twitter_id_string : String
  user_id : Int
  timestamp : Int
  text : String

/-- Recent tweets about a specific train, from `src/schemas.rs`. -/
structure RecentTweets where
  keywords : String
  tweets : List AbridgedTweet

/-- An alert issued by WMATA, from `src/schemas.rs`. -/
structure MetroAlert where
  description : String
  station_codes : List StationCode
  line_codes : List LineCode
  keywords : List String
  date : String

/-- An escalator or elevator outage reported by WMATA, from `src/schemas.rs`. -/
structure ElevatorEscalatorOutage where
  station_code : StationCode
  station_name : String
  location_description : String
  symptom_description : String
  unit_name : String
  unit_type : String
  out_of_service_date : String
  updated_date : String
  estimated_return_to_service_date : String

/-- Predicted arrival information about a Metrorail train, from the `TrainPrediction`
struct in `src/schemas.rs`. Rust `f64` fields are modelled as `Float`, `i64` as `Int`. -/
structure TrainPrediction where
  train_id : String
  real_train_id : Option String
  car : String
  destination : String
  destination_code : Option StationCode
  destination_name : String
  group : String
  line : LineCode
  location_code : Option StationCode
  location_name : Option String
  min : String
  parent_min : Option String
  minutes_away : Option Float
  max_minutes_away : Option Float
  direction_number : Int
  is_scheduled : Bool
  num_positive_tags : Int
  num_negative_tags : Int
  track_number : Int
  current_station_code : StationCode
  current_station_name : String
  previous_station_code : Option StationCode
  previous_station_name : Option String
  seconds_since_last_moved : Int
  is_currently_holding_or_slow : Bool
  seconds_off_schedule : Int
  train_speed : Option Int
  is_not_on_revenue_track : Bool
  is_keyed_down : Bool
  was_keyed_down : Bool
  distance_from_next_station : Option Int
  lat : Option Float
  lon : Option Float
  direction : Option Int
  are_doors_open_on_left : Option Bool
  are_doors_open_on_right : Option Bool
  observed_date : String
  recent_tweets : Option RecentTweets

/-- Travel information about a trip between two Metrorail stations, from `src/schemas.rs`. -/
structure TripInfo where
  from_station_name : String
  from_station_code : StationCode
  to_station_name : String
  to_station_code : StationCode
  trip_station_codes : List StationCode
  line_codes : List LineCode
  expected_ride_time : Float
  predicted_ride_time : Float
  time_since_last_train : Float
  from_station_train_statuses : List TrainPrediction
  date : String
  time_until_next_train : Option Float
  metro_alerts : Option (List MetroAlert)
  metro_alert_keywords : Option (List String)
  tweets : Option (List Tweet)
  tweet_keywords : Option (List String)
  from_station_elevator_outages : Option (List ElevatorEscalatorOutage)
  from_station_escalator_outages : Option (List ElevatorEscalatorOutage)
  to_station_elevator_outages : Option (List ElevatorEscalatorOutage)
  to_station_escalator_outages : Option (List ElevatorEscalatorOutage)

/-- Counts of user-reported issues with a Metrorail station, from `src/schemas.rs`. -/
structure NumStationTagsByType where
  friendly_or_helpful_staff : Int
  uncomfortable_temps : Int
  ample_security : Int
  broken_elevator : Int
  broken_escalator : Int
  crowded : Int
  empty : Int
  free_hand_sanitizer_available : Int
  free_masks_available : Int
  long_waiting_time : Int
  needs_work : Int
  no_free_hand_sanitizer : Int
  no_free_masks : Int
  posted_times_inaccurate : Int
  smoke_or_fire : Int
  unfriendly_or_unhelpful_staff : Int

/-- User-reported information about a Metrorail station, from `src/schemas.rs`. -/
structure StationTags where
  num_tags_by_type : NumStationTagsByType
  num_positive_tags : Int
  num_negative_tags : Int

/-- Counts of user-reported issues with a Metrorail train, from `src/schemas.rs`. -/
structure NumTrainTagsByType where
  bad_operator : Int
  isolated_cars : Int
  new_train : Int
  broken_intercom : Int
  crowded : Int
  disruptive_passenger : Int
  empty : Int
  good_operator : Int
  good_ride : Int
  needs_work : Int
  recently_offloaded : Int
  uncomfortable_ride : Int
  uncomfortable_temps : Int
  wrong_destination : Int
  wrong_num_cars : Int

/-- User-reported information about a Metrorail train, from `src/schemas.rs`. -/
structure TrainTags where
  num_tags_by_type : NumTrainTagsByType
  num_positive_tags : Int
  num_negative_tags : Int

/-- Service disruption information for a Metrorail line and direction, from `src/schemas.rs`. -/
structure ServiceGaps where
  line_code : LineCode
  direction_number : Int
  direction : String
  from_station_code : StationCode
  from_station_name : String
  to_station_code : StationCode
  to_station_name : String
  from_train_id : String
  to_train_id : String
  time_between_trains : Float
  scheduled_time_between_trains : Float
  observed_date : String

/-- Direction metrics for a specific line and direction, from `src/schemas.rs`. -/
structure DirectionMetrics where
  line_code : LineCode
  direction_number : Int
  direction : String
  towards_station_name : String
  date : String
  num_trains : Int
  num_cars : Int
  num_eight_car_trains : Int
  num_delayed_trains : Int
  expected_num_trains : Int
  average_train_delay : Option Int
  median_train_delay : Option Int
  minimum_train_delay : Option Int
  maximum_train_delay : Option Int
  average_minimum_headways : Option Float
  average_train_frequency : Option Float
  expected_train_frequency : Option Float
  average_platform_wait_time : Option Float
  expected_platform_wait_time : Option Float
  train_frequency_status : Option String
  platform_wait_time_trend_status : Option String
  average_headway_adherence : Option Float
  average_schedule_adherence : Option Float
  standard_deviation_train_frequency : Option Float
  expected_standard_deviation_train_frequency : Option Float

/-- Train metrics by direction for a specific Metrorail line, from `src/schemas.rs`. -/
structure DirectionMetricsByDirection where
  d1 : DirectionMetrics
  d2 : DirectionMetrics

/-- Line metrics for a specific line, from `src/schemas.rs`. -/
structure LineMetrics where
  line_code : LineCode
  service_gaps : List ServiceGaps
  direction_metrics_by_direction : DirectionMetricsByDirection
  date : String
  num_trains : Int
  num_cars : Int
  num_eight_car_trains : Int
  num_delayed_trains : Int
  expected_num_trains : Int
  average_train_delay : Option Int
  median_train_delay : Option Int
  minimum_train_delay : Option Int
  maximum_train_delay : Option Int
  average_minimum_headways : Option Float
  average_train_frequency : Option Float
  expected_train_frequency : Option Float
  average_platform_wait_time : Option Float
  expected_platform_wait_time : Option Float
  train_frequency_status : Option String
  platform_wait_time_trend_status : Option String
  average_headway_adherence : Option Float
  average_schedule_adherence : Option Float
  standard_deviation_train_frequency : Option Float
  expected_standard_deviation_train_frequency : Option Float

/-- Line-specific metrics by line code, from `src/schemas.rs`. -/
structure SystemMetrics where
  rd : LineMetrics
  or_line : LineMetrics
  sv : LineMetrics
  bl : LineMetrics
  yl : LineMetrics
  gr : LineMetrics

/-- Performance metrics for the overall Metrorail system, from `src/schemas.rs`. -/
structure SystemMetricsResponse where
  line_metrics_by_line : SystemMetrics
  date : String

/-- Train reports are a map between AIMS ID (as strings) and their report tags; the
Rust `HashMap` is modelled as an association list. From `src/schemas.rs`. -/
def TrainReports : Type := List (String × TrainTags)

/-- Train predictions for the entire Metrorail system, keyed by station ID. -/
def TrainPredictions : Type := List (String × List TrainPrediction)

/-- Station reports for the entire Metrorail system, keyed by station ID. -/
def StationReports : Type := List (String × StationTags)

/-- Whether `needle` occurs as a contiguous infix of `hay`, matching the semantics of
Rust `str::contains(&str)` (substring containment). -/
def charsInfixOf (needle : List Char) : List Char → Bool
  | [] => needle.isEmpty
  | c :: t => needle.isPrefixOf (c :: t) || charsInfixOf needle t

/-- Rust `String::contains(&str)`: substring containment on the character data. -/
def strContains (hay needle : String) : Bool :=
  charsInfixOf needle.data hay.data

/-- The `non_time_min_values` list from `TrainPrediction::eta_minutes` in `src/schemas.rs`. -/
def non_time_min_values : List String := ["ARR", "BRD", "?", ":"]

/-- `TrainPrediction::eta_minutes` from `src/schemas.rs`: clone the raw `min` token,
set `needs_min_invalidator` to false if any sentinel substring occurs in it (the
source loop over `non_time_min_values` is the fold below), and push a trailing
`m` character exactly when the flag survived as true. The receiver is taken by
shared reference in the source and never mutated; the embedding is a pure
function of the prediction. -/
def TrainPrediction.eta_minutes (p : TrainPrediction) : String :=
  let needs_min_invalidator :=
    non_time_min_values.foldl
      (fun acc value => if strContains p.min value then false else acc) true
  if needs_min_invalidator then p.min ++ "m" else p.min

/-- An HTTP response from the upstream API, as seen by `send_request` in
`src/client.rs`: a status code, and (for the deserialization step) either the
successfully deserialized body (`some`) or a body that failed to deserialize
into the target schema (`none`, the `response.json()` failure case). -/
structure HttpResponse (T : Type) where
  status : Nat
  body : Option T

/-- The outcome of the underlying `reqwest` send: either a response arrived, or the
transport failed (connect/timeout/TLS), which `From<reqwest::Error>` converts to
`MetroHeroError::HttpError`. -/
inductive TransportResult (T : Type) where
  | ok (response : HttpResponse T)
  | connectionFailure

/-- The outcome of a Gateway call: either a normal `Result` value, or the `panic!`
taken by `send_request` on an HTTP status outside the enumerated set. -/
inductive SendOutcome (T : Type) where
  | result (r : Except MetroHeroError T)
  | panicked

/-- `MetroHeroClient::send_request` from `src/client.rs`: transport failure maps to
`HttpError` via the `?` operator and `From<reqwest::Error>`; 200 deserializes the
body (or yields `ParseError`); 400, 401 and 503 map to `InvalidRequest`,
`AuthenticationError` and `RateLimited`; any other status panics. -/
def send_request {T : Type} (resp : TransportResult T) : SendOutcome T :=
  match resp with
  | .connectionFailure => .result (.error .HttpError)
  | .ok r =>
    if r.status = 200 then
      match r.body with
      | some model => .result (.ok model)
      | none => .result (.error .ParseError)
    else if r.status = 400 then .result (.error .InvalidRequest)
    else if r.status = 401 then .result (.error .AuthenticationError)
    else if r.status = 503 then .result (.error .RateLimited)
    else .panicked

/-- `MetroHeroClient::get_system_metrics` from `src/client.rs`: delegates to
`send_request`, propagating any error unchanged via `?`. -/
def get_system_metrics (resp : TransportResult SystemMetricsResponse) :
    SendOutcome SystemMetricsResponse :=
  match send_request resp with
  | .result (.ok metrics) => .result (.ok metrics)
  | .result (.error e) => .result (.error e)
  | .panicked => .panicked

/-- `MetroHeroClient::get_tweets` from `src/client.rs`. -/
def get_tweets (resp : TransportResult (List Tweet)) : SendOutcome (List Tweet) :=
  match send_request resp with
  | .result (.ok tweets) => .result (.ok tweets)
  | .result (.error e) => .result (.error e)
  | .panicked => .panicked

/-- `MetroHeroClient::get_train_positions` from `src/client.rs`. -/
def get_train_positions (resp : TransportResult (List TrainPrediction)) :
    SendOutcome (List TrainPrediction) :=
  match send_request resp with
  | .result (.ok train_positions) => .result (.ok train_positions)
  | .result (.error e) => .result (.error e)
  | .panicked => .panicked

/-- `MetroHeroClient::get_train_reports` from `src/client.rs`. -/
def get_train_reports (resp : TransportResult TrainReports) : SendOutcome TrainReports :=
  match send_request resp with
  | .result (.ok reports) => .result (.ok reports)
  | .result (.error e) => .result (.error e)
  | .panicked => .panicked

/-- `MetroHeroClient::get_train_report` from `src/client.rs`: a 400
(`InvalidRequest` from `send_request`) can only mean the train ID was invalid,
so it is remapped to `InvalidTrainId`; every other outcome passes through. -/
def get_train_report (train_id : String) (resp : TransportResult TrainTags) :
    SendOutcome TrainTags :=
  match send_request resp with
  | .result (.ok train_tags) => .result (.ok train_tags)
  | .result (.error .InvalidRequest) => .result (.error .InvalidTrainId)
  | .result (.error e) => .result (.error e)
  | .panicked => .panicked

/-- `MetroHeroClient::get_train_predictions` from `src/client.rs`. -/
def get_train_predictions (resp : TransportResult TrainPredictions) :
    SendOutcome TrainPredictions :=
  match send_request resp with
  | .result (.ok predictions) => .result (.ok predictions)
  | .result (.error e) => .result (.error e)
  | .panicked => .panicked

/-- `MetroHeroClient::get_station_train_predictions` from `src/client.rs`: a 400
indicates the station ID was invalid, so `InvalidRequest` is remapped to
`InvalidStation`; the successfully deserialized prediction list is returned
exactly as parsed. -/
def get_station_train_predictions (station_code : StationCode)
    (resp : TransportResult (List TrainPrediction)) : SendOutcome (List TrainPrediction) :=
  match send_request resp with
  | .result (.ok train_predictions) => .result (.ok train_predictions)
  | .result (.error .InvalidRequest) => .result (.error .InvalidStation)
  | .result (.error e) => .result (.error e)
  | .panicked => .panicked

/-- `MetroHeroClient::get_station_reports` from `src/client.rs`. -/
def get_station_reports (resp : TransportResult StationReports) : SendOutcome StationReports :=
  match send_request resp with
  | .result (.ok reports) => .result (.ok reports)
  | .result (.error e) => .result (.error e)
  | .panicked => .panicked

/-- `MetroHeroClient::get_station_report` from `src/client.rs`: `InvalidRequest`
is remapped to `InvalidStation`. -/
def get_station_report (station_code : StationCode) (resp : TransportResult StationTags) :
    SendOutcome StationTags :=
  match send_request resp with
  | .result (.ok station_tags) => .result (.ok station_tags)
  | .result (.error .InvalidRequest) => .result (.error .InvalidStation)
  | .result (.error e) => .result (.error e)
  | .panicked => .panicked

/-- `MetroHeroClient::get_trip_info` from `src/client.rs`: a 400 means one or more
station codes were invalid as an itinerary, so `InvalidRequest` is remapped to
`InvalidItinerary`. -/
def get_trip_info (from_station_code to_station_code : StationCode)
    (resp : TransportResult TripInfo) : SendOutcome TripInfo :=
  match send_request resp with
  | .result (.ok trip_info) => .result (.ok trip_info)
  | .result (.error .InvalidRequest) => .result (.error .InvalidItinerary)
  | .result (.error e) => .result (.error e)
  | .panicked => .panicked

/-- All variants of the closed `StationCode` enumeration. The code-to-name table
inserts every variant exactly once in declaration order, so its key list
enumerates the closed set. -/
def allStationCodes : List StationCode := STATION_CODE_TO_NAME.map Prod.fst

/-- The exact string forms of all station-code variants (the strings accepted by the
derived case-sensitive `FromStr`). -/
def stationCodeNames : List String := STATION_CODE_STRINGS.map Prod.fst

/-- The exact key strings of the name/alias table. -/
def stationNameKeys : List String := STATION_NAME_TO_CODE.map Prod.fst

/-- The station-code strings recognized by name during `serde` deserialization:
every variant except the `#[serde(other)]` sentinel `UNKNOWN`. -/
def recognizedStationCodeStrings : List String :=
  STATION_CODE_SERDE_STRINGS.map Prod.fst

/-- A concrete train prediction used to instantiate theorems at specific ETA tokens. -/
def testPrediction (m : String) : TrainPrediction where
  train_id := "123"
  real_train_id := none
  car := "8"
  destination := "Glenmont"
  destination_code := some .B11
  destination_name := "Glenmont"
  group := "1"
  line := .Red
  location_code := none
  location_name := none
  min := m
  parent_min := none
  minutes_away := none
  max_minutes_away := none
  direction_number := 1
  is_scheduled := false
  num_positive_tags := 0
  num_negative_tags := 0
  track_number := 1
  current_station_code := .A01
  current_station_name := "Metro Center"
  previous_station_code := none
  previous_station_name := none
  seconds_since_last_moved := 0
  is_currently_holding_or_slow := false
  seconds_off_schedule := 0
  train_speed := none
  is_not_on_revenue_track := false
  is_keyed_down := false
  was_keyed_down := false
  distance_from_next_station := none
  lat := none
  lon := none
  direction := none
  are_doors_open_on_left := none
  are_doors_open_on_right := none
  observed_date := "2022-01-01T00:00:00"
  recent_tweets := none

theorem lookupLast_mem {K V : Type} [DecidableEq K] {l : List (K × V)} {k : K} {v : V}
    (h : lookupLast l k = some v) : (k, v) ∈ l := by
  induction l with
  | nil => simp [lookupLast] at h
  | cons p t ih =>
    obtain ⟨a, b⟩ := p
    simp only [lookupLast] at h
    cases hlt : lookupLast t k with
    | some w =>
      rw [hlt] at h
      injection h with hw
      subst hw
      exact List.mem_cons_of_mem _ (ih hlt)
    | none =>
      rw [hlt] at h
      split_ifs at h with hk
      · injection h with hb
        subst hk
        subst hb
        exact List.mem_cons_self _ _

theorem lookupLast_eq_none_of_not_key {K V : Type} [DecidableEq K] {l : List (K × V)} {k : K}
    (h : k ∉ l.map Prod.fst) : lookupLast l k = none := by
  cases hl : lookupLast l k with
  | none => rfl
  | some v => exact absurd (List.mem_map.mpr ⟨(k, v), lookupLast_mem hl, rfl⟩) h

theorem isPrefixOf_mem {n hay : List Char} {c : Char}
    (hp : n.isPrefixOf hay = true) (hc : c ∈ n) : c ∈ hay := by
  induction n generalizing hay with
  | nil => cases hc
  | cons a t ih =>
    cases hay with
    | nil => simp [List.isPrefixOf] at hp
    | cons b t2 =>
      simp only [List.isPrefixOf, Bool.and_eq_true, beq_iff_eq] at hp
      obtain ⟨hab, hpt⟩ := hp
      cases hc with
      | head =>
        subst hab
        exact List.mem_cons_self _ _
      | tail _ hct => exact List.mem_cons_of_mem _ (ih hpt hct)

theorem charsInfixOf_mem {n hay : List Char} {c : Char}
    (hi : charsInfixOf n hay = true) (hc : c ∈ n) : c ∈ hay := by
  induction hay with
  | nil =>
    cases n with
    | nil => cases hc
    | cons a t => simp [charsInfixOf, List.isEmpty] at hi
  | cons a t ih =>
    simp only [charsInfixOf, Bool.or_eq_true] at hi
    cases hi with
    | inl hp => exact isPrefixOf_mem hp hc
    | inr hr => exact List.mem_cons_of_mem _ (ih hr)

theorem strContains_eq_false_of_digits {m v : String} {c : Char}
    (hd : m.data.all Char.isDigit = true) (hcv : c ∈ v.data) (hcd : c.isDigit = false) :
    strContains m v = false := by
  cases hb : strContains m v with
  | false => rfl
  | true =>
    exfalso
    have hcm : c ∈ m.data := charsInfixOf_mem hb hcv
    rw [List.all_eq_true] at hd
    have hdc := hd c hcm
    rw [hcd] at hdc
    cases hdc

theorem lookupFirst_mem_key {K V : Type} [DecidableEq K] {l : List (K × V)} {k : K} {v : V}
    (h : lookupFirst l k = some v) : k ∈ l.map Prod.fst := by
  induction l with
  | nil => simp [lookupFirst] at h
  | cons p t ih =>
    obtain ⟨a, b⟩ := p
    simp only [lookupFirst] at h
    split_ifs at h with hk
    · subst hk
      exact List.mem_cons_self _ _
    · exact List.mem_cons_of_mem _ (ih h)

theorem lookupFirst_eq_none_of_not_key {K V : Type} [DecidableEq K] {l : List (K × V)}
    {k : K} (h : k ∉ l.map Prod.fst) : lookupFirst l k = none := by
  cases hl : lookupFirst l k with
  | none => rfl
  | some v => exact absurd (lookupFirst_mem_key hl) h

theorem fromStr_mem {s : String} {c : StationCode} (h : StationCode.fromStr s = some c) :
    s ∈ stationCodeNames :=
  lookupFirst_mem_key h

theorem eta_minutes_def (p : TrainPrediction) :
    p.eta_minutes =
      if non_time_min_values.foldl
          (fun acc value => if strContains p.min value then false else acc) true
      then p.min ++ "m" else p.min := rfl

/-- C1: for every response with HTTP status 400, the station-scoped train-prediction
fetch returns the Invalid station error, the by-train-id report fetch returns the
Invalid train id error, and the trip-info fetch returns the Invalid itinerary error
(never the generic Invalid request error). -/
theorem C1_endpoint_400_remap (station_code : StationCode) (train_id : String)
    (from_station_code to_station_code : StationCode)
    (b1 : Option (List TrainPrediction)) (b2 : Option TrainTags) (b3 : Option TripInfo) :
    get_station_train_predictions station_code (.ok ⟨400, b1⟩) =
      .result (.error .InvalidStation) ∧
    get_train_report train_id (.ok ⟨400, b2⟩) = .result (.error .InvalidTrainId) ∧
    get_trip_info from_station_code to_station_code (.ok ⟨400, b3⟩) =
      .result (.error .InvalidItinerary) :=
  ⟨rfl, rfl, rfl⟩

/-- C2: generic HTTP-outcome mapping for every Gateway operation: 200 with a
deserializable body yields success with the payload; 200 without yields the parse
error; 401 yields the authentication error; 503 yields the rate-limited error; a
transport failure yields the HTTP error. -/
theorem C2_generic_http_mapping :
    (∀ (p : SystemMetricsResponse) (b : Option SystemMetricsResponse),
       get_system_metrics (.ok ⟨200, some p⟩) = .result (.ok p) ∧
       get_system_metrics (.ok ⟨200, none⟩) = .result (.error .ParseError) ∧
       get_system_metrics (.ok ⟨401, b⟩) = .result (.error .AuthenticationError) ∧
       get_system_metrics (.ok ⟨503, b⟩) = .result (.error .RateLimited) ∧
       get_system_metrics .connectionFailure = .result (.error .HttpError)) ∧
    (∀ (p : List Tweet) (b : Option (List Tweet)),
       get_tweets (.ok ⟨200, some p⟩) = .result (.ok p) ∧
       get_tweets (.ok ⟨200, none⟩) = .result (.error .ParseError) ∧
       get_tweets (.ok ⟨401, b⟩) = .result (.error .AuthenticationError) ∧
       get_tweets (.ok ⟨503, b⟩) = .result (.error .RateLimited) ∧
       get_tweets .connectionFailure = .result (.error .HttpError)) ∧
    (∀ (p : List TrainPrediction) (b : Option (List TrainPrediction)),
       get_train_positions (.ok ⟨200, some p⟩) = .result (.ok p) ∧
       get_train_positions (.ok ⟨200, none⟩) = .result (.error .ParseError) ∧
       get_train_positions (.ok ⟨401, b⟩) = .result (.error .AuthenticationError) ∧
       get_train_positions (.ok ⟨503, b⟩) = .result (.error .RateLimited) ∧
       get_train_positions .connectionFailure = .result (.error .HttpError)) ∧
    (∀ (p : TrainReports) (b : Option TrainReports),
       get_train_reports (.ok ⟨200, some p⟩) = .result (.ok p) ∧
       get_train_reports (.ok ⟨200, none⟩) = .result (.error .ParseError) ∧
       get_train_reports (.ok ⟨401, b⟩) = .result (.error .AuthenticationError) ∧
       get_train_reports (.ok ⟨503, b⟩) = .result (.error .RateLimited) ∧
       get_train_reports .connectionFailure = .result (.error .HttpError)) ∧
    (∀ (i : String) (p : TrainTags) (b : Option TrainTags),
       get_train_report i (.ok ⟨200, some p⟩) = .result (.ok p) ∧
       get_train_report i (.ok ⟨200, none⟩) = .result (.error .ParseError) ∧
       get_train_report i (.ok ⟨401, b⟩) = .result (.error .AuthenticationError) ∧
       get_train_report i (.ok ⟨503, b⟩) = .result (.error .RateLimited) ∧
       get_train_report i .connectionFailure = .result (.error .HttpError)) ∧
    (∀ (p : TrainPredictions) (b : Option TrainPredictions),
       get_train_predictions (.ok ⟨200, some p⟩) = .result (.ok p) ∧
       get_train_predictions (.ok ⟨200, none⟩) = .result (.error .ParseError) ∧
       get_train_predictions (.ok ⟨401, b⟩) = .result (.error .AuthenticationError) ∧
       get_train_predictions (.ok ⟨503, b⟩) = .result (.error .RateLimited) ∧
       get_train_predictions .connectionFailure = .result (.error .HttpError)) ∧
    (∀ (sc : StationCode) (p : List TrainPrediction) (b : Option (List TrainPrediction)),
       get_station_train_predictions sc (.ok ⟨200, some p⟩) = .result (.ok p) ∧
       get_station_train_predictions sc (.ok ⟨200, none⟩) = .result (.error .ParseError) ∧
       get_station_train_predictions sc (.ok ⟨401, b⟩) =
         .result (.error .AuthenticationError) ∧
       get_station_train_predictions sc (.ok ⟨503, b⟩) = .result (.error .RateLimited) ∧
       get_station_train_predictions sc .connectionFailure = .result (.error .HttpError)) ∧
    (∀ (p : StationReports) (b : Option StationReports),
       get_station_reports (.ok ⟨200, some p⟩) = .result (.ok p) ∧
       get_station_reports (.ok ⟨200, none⟩) = .result (.error .ParseError) ∧
       get_station_reports (.ok ⟨401, b⟩) = .result (.error .AuthenticationError) ∧
       get_station_reports (.ok ⟨503, b⟩) = .result (.error .RateLimited) ∧
       get_station_reports .connectionFailure = .result (.error .HttpError)) ∧
    (∀ (sc : StationCode) (p : StationTags) (b : Option StationTags),
       get_station_report sc (.ok ⟨200, some p⟩) = .result (.ok p) ∧
       get_station_report sc (.ok ⟨200, none⟩) = .result (.error .ParseError) ∧
       get_station_report sc (.ok ⟨401, b⟩) = .result (.error .AuthenticationError) ∧
       get_station_report sc (.ok ⟨503, b⟩) = .result (.error .RateLimited) ∧
       get_station_report sc .connectionFailure = .result (.error .HttpError)) ∧
    (∀ (f t : StationCode) (p : TripInfo) (b : Option TripInfo),
       get_trip_info f t (.ok ⟨200, some p⟩) = .result (.ok p) ∧
       get_trip_info f t (.ok ⟨200, none⟩) = .result (.error .ParseError) ∧
       get_trip_info f t (.ok ⟨401, b⟩) = .result (.error .AuthenticationError) ∧
       get_trip_info f t (.ok ⟨503, b⟩) = .result (.error .RateLimited) ∧
       get_trip_info f t .connectionFailure = .result (.error .HttpError)) :=
  ⟨fun p b => ⟨rfl, rfl, rfl, rfl, rfl⟩,
   fun p b => ⟨rfl, rfl, rfl, rfl, rfl⟩,
   fun p b => ⟨rfl, rfl, rfl, rfl, rfl⟩,
   fun p b => ⟨rfl, rfl, rfl, rfl, rfl⟩,
   fun i p b => ⟨rfl, rfl, rfl, rfl, rfl⟩,
   fun p b => ⟨rfl, rfl, rfl, rfl, rfl⟩,
   fun sc p b => ⟨rfl, rfl, rfl, rfl, rfl⟩,
   fun p b => ⟨rfl, rfl, rfl, rfl, rfl⟩,
   fun sc p b => ⟨rfl, rfl, rfl, rfl, rfl⟩,
   fun f t p b => ⟨rfl, rfl, rfl, rfl, rfl⟩⟩

/-- C9: for every upstream response body that deserializes into a list of train
predictions, get_station_train_predictions returns exactly that list, unchanged, so
the upstream ascending-minutes-away ordering is preserved and nothing is re-sorted,
truncated, or reordered. -/
theorem C9_station_predictions_order_preserved (station_code : StationCode)
    (l : List TrainPrediction) :
    get_station_train_predictions station_code (.ok ⟨200, some l⟩) = .result (.ok l) :=
  rfl

/-- C4: for every valid StationCode c, resolving the string form of c (the code
itself used as input, matched case-sensitively against the code enumeration before
the name table) yields exactly c. -/
theorem C4_code_input_round_trip (c : StationCode) :
    parse_user_station_input c.displayString = .ok c := by
  cases c <;> rfl

/-- C5: the display-name lookup is total over the closed StationCode enumeration:
for every variant, including the sentinel UNKNOWN, the code-to-name table lookup
returns a name (so the unwrap in StationCode::to_name is unreachable), and UNKNOWN
maps to the name "UNKNOWN". -/
theorem C5_to_name_total :
    (∀ c : StationCode, (StationCode.to_name c).isSome = true) ∧
    StationCode.to_name .UNKNOWN = some "UNKNOWN" := by
  constructor
  · intro c
    cases c <;> rfl
  · rfl

/-- C6: for every input string that is neither an exact case-sensitive member of the
station-code enumeration nor an exact key of the alias/name table, resolution fails
with the Invalid station error: the CLI resolver takes its error-and-exit path and
StationCode::from_name returns InvalidStation; no fuzzy, case-insensitive, or
whitespace-normalized matching is attempted. -/
theorem C6_unmatched_input_fails (s : String)
    (h1 : s ∉ stationCodeNames) (h2 : s ∉ stationNameKeys) :
    parse_user_station_input s = .exitInvalidStation ∧
    StationCode.from_name s = .error .InvalidStation := by
  have hf : StationCode.fromStr s = none := by
    cases hfs : StationCode.fromStr s with
    | none => rfl
    | some c => exact absurd (fromStr_mem hfs) h1
  have hl : lookupLast STATION_NAME_TO_CODE s = none :=
    lookupLast_eq_none_of_not_key h2
  have hn : StationCode.from_name s = .error .InvalidStation := by
    unfold StationCode.from_name
    rw [hl]
  refine ⟨?_, hn⟩
  unfold parse_user_station_input
  rw [hf, hn]

/-- A lowercased station name matches neither the code enumeration nor the alias
table, so resolution rejects it (case-sensitive matching only). -/
theorem C6_unmatched_input_fails_witness :
    ("metro center" ∉ stationCodeNames) ∧ ("metro center" ∉ stationNameKeys) ∧
    parse_user_station_input "metro center" = .exitInvalidStation :=
  ⟨by decide, by decide,
   (C6_unmatched_input_fails "metro center" (by decide) (by decide)).1⟩

/-- C7: for every HTTP response status outside the enumerated set {200, 400, 401, 503},
send_request panics (aborts the call loudly), so every Gateway operation on such a
status produces the panic outcome, never a normal Result value and never a default
error mapping. -/
theorem C7_unexpected_status_panics (status : Nat)
    (h200 : status ≠ 200) (h400 : status ≠ 400) (h401 : status ≠ 401)
    (h503 : status ≠ 503) :
    (∀ (T : Type) (b : Option T), send_request (.ok ⟨status, b⟩) = .panicked) ∧
    (∀ b, get_system_metrics (.ok ⟨status, b⟩) = .panicked) ∧
    (∀ b, get_tweets (.ok ⟨status, b⟩) = .panicked) ∧
    (∀ b, get_train_positions (.ok ⟨status, b⟩) = .panicked) ∧
    (∀ b, get_train_reports (.ok ⟨status, b⟩) = .panicked) ∧
    (∀ i b, get_train_report i (.ok ⟨status, b⟩) = .panicked) ∧
    (∀ b, get_train_predictions (.ok ⟨status, b⟩) = .panicked) ∧
    (∀ sc b, get_station_train_predictions sc (.ok ⟨status, b⟩) = .panicked) ∧
    (∀ b, get_station_reports (.ok ⟨status, b⟩) = .panicked) ∧
    (∀ sc b, get_station_report sc (.ok ⟨status, b⟩) = .panicked) ∧
    (∀ f t b, get_trip_info f t (.ok ⟨status, b⟩) = .panicked) := by
  have hs : ∀ (T : Type) (b : Option T), send_request (.ok ⟨status, b⟩) = .panicked := by
    intro T b
    simp [send_request, h200, h400, h401, h503]
  refine ⟨hs, ?_, ?_, ?_, ?_, ?_, ?_, ?_, ?_, ?_, ?_⟩ <;> intros <;>
    simp only [get_system_metrics, get_tweets, get_train_positions, get_train_reports,
      get_train_report, get_train_predictions, get_station_train_predictions,
      get_station_reports, get_station_report, get_trip_info, hs]

/-- A 500 status is outside the enumerated set and makes the call panic. -/
theorem C7_unexpected_status_panics_witness :
    ((500 : Nat) ≠ 200) ∧
    send_request (.ok (⟨500, none⟩ : HttpResponse TrainTags)) = .panicked :=
  ⟨by decide,
   (C7_unexpected_status_panics 500 (by decide) (by decide) (by decide) (by decide)).1
     TrainTags none⟩

/-- C8: eta_minutes appends the character m to the raw min token when the token is a
plain minute count (nonempty, all digits), and returns the raw token completely
unmodified when it is the ARR or BRD arrival/boarding sentinel; the prediction is
read through a shared reference and never mutated (the embedding is pure). -/
theorem C8_eta_minutes_formatting (p : TrainPrediction) :
    (p.min.data ≠ [] → p.min.data.all Char.isDigit = true →
      p.eta_minutes = p.min ++ "m") ∧
    (p.min = "ARR" ∨ p.min = "BRD" → p.eta_minutes = p.min) := by
  constructor
  · intro hne hd
    have h1 : strContains p.min "ARR" = false :=
      strContains_eq_false_of_digits hd
        (show ('A' : Char) ∈ ("ARR" : String).data by decide) (by decide)
    have h2 : strContains p.min "BRD" = false :=
      strContains_eq_false_of_digits hd
        (show ('B' : Char) ∈ ("BRD" : String).data by decide) (by decide)
    have h3 : strContains p.min "?" = false :=
      strContains_eq_false_of_digits hd
        (show ('?' : Char) ∈ ("?" : String).data by decide) (by decide)
    have h4 : strContains p.min ":" = false :=
      strContains_eq_false_of_digits hd
        (show (':' : Char) ∈ (":" : String).data by decide) (by decide)
    rw [eta_minutes_def]
    simp [non_time_min_values, h1, h2, h3, h4]
  · intro hmin
    rcases hmin with hmin | hmin <;>
      · rw [eta_minutes_def, hmin]
        rfl

/-- A plain minute token gets a trailing m; the BRD sentinel is preserved unmodified. -/
theorem C8_eta_minutes_formatting_witness :
    (("5" : String).data ≠ [] ∧ ("5" : String).data.all Char.isDigit = true ∧
      (testPrediction "5").eta_minutes = "5" ++ "m") ∧
    (testPrediction "BRD").eta_minutes = "BRD" :=
  ⟨⟨by decide, by decide,
    (C8_eta_minutes_formatting (testPrediction "5")).1 (by decide) (by decide)⟩,
   (C8_eta_minutes_formatting (testPrediction "BRD")).2 (Or.inr rfl)⟩

/-- C10: for every upstream payload string typed as a station code that is not one of
the recognized station-code strings, serde deserialization falls through to the
sentinel StationCode.UNKNOWN instead of failing, so an unrecognized code never by
itself makes a response unparseable. -/
theorem C10_serde_other_fallback (s : String)
    (h : s ∉ recognizedStationCodeStrings) : stationCodeDeserialize s = .UNKNOWN := by
  unfold stationCodeDeserialize
  rw [lookupFirst_eq_none_of_not_key h]
  rfl

/-- The unrecognized code string Z99 deserializes to the sentinel. -/
theorem C10_serde_other_fallback_witness :
    ("Z99" ∉ recognizedStationCodeStrings) ∧ stationCodeDeserialize "Z99" = .UNKNOWN :=
  ⟨by decide, C10_serde_other_fallback "Z99" (by decide)⟩

/-- C3 fails on the code: the station code A01 has an entry in the code-to-name
table (its display name is Metro Center), but no input string reaches A01 through
the name-to-code table, because every alias that was inserted for A01 was later
re-inserted for the sibling code C01, overwriting the HashMap entry. -/
theorem C3_reachability_counterexample :
    (lookupLast STATION_CODE_TO_NAME StationCode.A01).isSome = true ∧
    ¬ ∃ s : String, lookupLast STATION_NAME_TO_CODE s = some StationCode.A01 := by
  constructor
  · decide
  · rintro ⟨s, h⟩
    have hmem : (s, StationCode.A01) ∈ STATION_NAME_TO_CODE := lookupLast_mem h
    have hall : STATION_NAME_TO_CODE.all
        (fun p => !(p.2 == StationCode.A01) ||
          !(lookupLast STATION_NAME_TO_CODE p.1 == some StationCode.A01)) = true := by
      decide
    rw [List.all_eq_true] at hall
    have hp := hall _ hmem
    simp only [Bool.or_eq_true, Bool.not_eq_true', beq_eq_false_iff_ne] at hp
    rcases hp with hp | hp
    · exact absurd rfl hp
    · exact absurd h hp

set_option maxHeartbeats 16000000 in
/-- C3, amended: every station code that appears in the code-to-name mapping is
reachable from at least one entry in the name-to-code mapping EXCEPT the four codes
A01, B01, B06 and D03, whose display names and aliases are shared with a sibling
code and re-inserted later for that sibling, overwriting the HashMap entries; every
code reachable from the name-to-code mapping appears in the code-to-name mapping;
and the sentinel UNKNOWN is reachable only via the literal input string UNKNOWN. -/
theorem C3_amended_reachability :
    (∀ c : StationCode, (lookupLast STATION_CODE_TO_NAME c).isSome = true →
      c ≠ .A01 → c ≠ .B01 → c ≠ .B06 → c ≠ .D03 →
      ∃ s : String, lookupLast STATION_NAME_TO_CODE s = some c) ∧
    (∀ (s : String) (c : StationCode), lookupLast STATION_NAME_TO_CODE s = some c →
      (lookupLast STATION_CODE_TO_NAME c).isSome = true) ∧
    (∀ s : String, lookupLast STATION_NAME_TO_CODE s = some StationCode.UNKNOWN →
      s = "UNKNOWN") := by
  refine ⟨?_, ?_, ?_⟩
  · intro c hin h1 h2 h3 h4
    obtain ⟨n, hn⟩ := Option.isSome_iff_exists.mp hin
    have hmem : (c, n) ∈ STATION_CODE_TO_NAME := lookupLast_mem hn
    have hall : STATION_CODE_TO_NAME.all
        (fun p => (p.1 == StationCode.A01) || (p.1 == StationCode.B01) ||
          (p.1 == StationCode.B06) || (p.1 == StationCode.D03) ||
          (lookupLast STATION_NAME_TO_CODE p.2 == some p.1)) = true := by
      decide
    rw [List.all_eq_true] at hall
    have hp := hall _ hmem
    simp only [Bool.or_eq_true, beq_iff_eq] at hp
    rcases hp with ((((hA | hB) | hC) | hD) | hgood)
    · exact absurd hA h1
    · exact absurd hB h2
    · exact absurd hC h3
    · exact absurd hD h4
    · exact ⟨n, hgood⟩
  · intro s c h
    have hc : c ∈ STATION_NAME_TO_CODE.map Prod.snd :=
      List.mem_map.mpr ⟨(s, c), lookupLast_mem h, rfl⟩
    have hall : (STATION_NAME_TO_CODE.map Prod.snd).all
        (fun x => (lookupLast STATION_CODE_TO_NAME x).isSome) = true := by
      decide
    rw [List.all_eq_true] at hall
    exact hall _ hc
  · intro s h
    have hmem : (s, StationCode.UNKNOWN) ∈ STATION_NAME_TO_CODE := lookupLast_mem h
    have hall : STATION_NAME_TO_CODE.all
        (fun p => !(p.2 == StationCode.UNKNOWN) || (p.1 == "UNKNOWN")) = true := by
      decide
    rw [List.all_eq_true] at hall
    have hp := hall _ hmem
    simp only [beq_self_eq_true, Bool.not_true, Bool.false_or, beq_iff_eq] at hp
    exact hp

/-- The code K03 appears in the code-to-name table and is reached through the
name-to-code table. -/
theorem C3_amended_reachability_witness :
    (lookupLast STATION_CODE_TO_NAME StationCode.K03).isSome = true ∧
    ∃ s : String, lookupLast STATION_NAME_TO_CODE s = some StationCode.K03 :=
  ⟨by decide,
   C3_amended_reachability.1 StationCode.K03 (by decide) (by decide) (by decide)
     (by decide) (by decide)⟩

end MetroHeroRs
